import Mathlib

/-!
Verification development for the autoresponder subsystem of the Parrot
Discord bot (`src/cogs/autoresponder/__init__.py`).

Modelling conventions:

* Timestamps and rate-limit arithmetic are modelled over `Int`.  The source
  uses Python floats, but every property considered here concerns discrete
  token counts and window comparisons, none of which depend on fractional
  time.
* The discord.py `Cooldown` class (an external dependency of the repository,
  configured at `AutoResponders.__init__` via
  `commands.CooldownMapping.from_cooldown(3, 10, BucketType.channel)`) is
  transcribed below; all claims concern a single channel and hence a single
  pair of buckets, so the per-channel mapping is represented by the state of
  that channel's two buckets.
* External collaborators (the jinja2 render engine, Python's `re` module,
  `discord.utils.escape_mentions`, the variable builder) are taken as
  oracle parameters of the embedding; the repository's own control flow
  around them is transcribed faithfully.
-/

/-- Modelled from discord.py 2.x `discord.ext.commands.Cooldown`:
`rate` hits per `per` seconds, with `_window`, `_tokens`, `_last` state. -/
structure Cooldown where
  rate : Int
  per : Int
  window : Int
  tokens : Int
  last : Int
  deriving DecidableEq, Repr

namespace Cooldown

/-- Transcribes `Cooldown.__init__` / `CooldownMapping.from_cooldown`: a fresh bucket. -/
def from_cooldown (rate per : Int) : Cooldown :=
  { rate := rate, per := per, window := 0, tokens := rate, last := 0 }

/-- Transcribes `Cooldown.get_tokens(current)`:
`tokens = max(self._tokens, 0); if current > self._window + self.per: tokens = self.rate`. -/
def get_tokens (c : Cooldown) (current : Int) : Int :=
  if current > c.window + c.per then c.rate else max c.tokens 0

/-- Transcribes `Cooldown.update_rate_limit(current)` (with the default `tokens=1`):
refresh the token count from the window, open a new window when the bucket
is full, consume one token, and return the retry-after when the bucket is
over-consumed (`None` otherwise).  Returns the Python return value together
with the updated bucket. -/
def update_rate_limit (c : Cooldown) (current : Int) : Option Int × Cooldown :=
  let t0 := c.get_tokens current
  let window := if t0 = c.rate then current else c.window
  let tokens := t0 - 1
  let c' : Cooldown :=
    { rate := c.rate, per := c.per, window := window, tokens := tokens, last := current }
  if tokens < 0 then (some (c.per - (current - window)), c') else (none, c')

end Cooldown

/-- Python truthiness of the `Optional[float]` returned by
`update_rate_limit`: `None` and `0.0` are falsy, any other number truthy. -/
def optTruthy : Option Int → Bool
  | none => false
  | some r => r != 0

/-- The two per-channel buckets held by `AutoResponders`:
`self.cooldown` and `self.exceeded_cooldown` (both `from_cooldown(3, 10)`,
keyed by channel).  All claims concern one channel, so the state is the
pair of that channel's buckets. -/
structure RLState where
  cooldown : Cooldown
  exceeded_cooldown : Cooldown
  deriving DecidableEq, Repr

/-- The bucket pair for a channel that has never been hit
(`CooldownMapping.get_bucket` creates `from_cooldown(3, 10)` copies). -/
def initialRLState : RLState :=
  { cooldown := Cooldown.from_cooldown 3 10
    exceeded_cooldown := Cooldown.from_cooldown 3 10 }

/-- Transcribes `AutoResponders.is_ratelimited(message)`: update the exceeded bucket
first; if that reports a rate limit return `True` (leaving the primary
bucket untouched), otherwise update the primary bucket and return the
truthiness of its result. -/
def is_ratelimited (st : RLState) (timestamp : Int) : Bool × RLState :=
  let exCall := st.exceeded_cooldown.update_rate_limit timestamp
  if optTruthy exCall.1 then
    (true, { cooldown := st.cooldown, exceeded_cooldown := exCall.2 })
  else
    let call := st.cooldown.update_rate_limit timestamp
    (optTruthy call.1, { cooldown := call.2, exceeded_cooldown := exCall.2 })

/-- Outcome of handing a template source to the external jinja2 engine
under the dispatcher's `async_timeout.timeout(delay=0.3)` region:
either the render completes with some text, or an exception is raised
inside the inner `try` (caught by the inner `except Exception`), or an
exception escapes to the outer handler (the 0.3 s timeout raises there). -/
inductive RenderOutcome where
  | ok (text : String)
  | exc (ekind emsg : String)
  | timeout (ekind emsg : String)
  deriving DecidableEq, Repr

/-- Computes `executing_what = "autoresponder" if from_auto_response else "jinja2"`. -/
def executing_what (from_auto_response : Bool) : String :=
  if from_auto_response then "autoresponder" else "jinja2"

/-- Transcribes `AutoResponders.execute_jinja(trigger, response, from_auto_response, **variables)`.
`esc` is `discord.utils.escape_mentions` (external SDK function, taken as an
oracle), applied to the trigger before any use; `outcome` is the oracle
result of compiling and rendering `response` with the given variables. -/
def execute_jinja (esc : String → String) (trigger : String) (outcome : RenderOutcome)
    (from_auto_response : Bool) : String × Bool :=
  let trigger := esc trigger
  match outcome with
  | .ok return_data =>
      if return_data.length > 1990 then
        ("Gave up executing " ++ executing_what from_auto_response ++ " - `" ++ trigger ++
          "`.\nReason: `Response is too long`", true)
      else
        (return_data, false)
  | .exc ekind emsg =>
      ("Gave up executing " ++ executing_what from_auto_response ++ ".\nReason: `" ++
        ekind ++ ": " ++ emsg ++ "`", true)
  | .timeout ekind emsg =>
      ("Gave up executing " ++ executing_what from_auto_response ++ " - `" ++ trigger ++
        "`.\nReason: `" ++ ekind ++ ": " ++ emsg ++ "`", true)

/-- Python `str.lower()` (ASCII case folding suffices for the strings at
issue). -/
def pyLower (s : String) : String :=
  ⟨s.data.map Char.toLower⟩

/-- Python `str.strip(" ")`: remove leading and trailing space characters
(spaces only, exactly as the source writes `.strip(" ")`). -/
def pyStripSpaces (s : String) : String :=
  ⟨(s.data.dropWhile (· == ' ')).rdropWhile (· == ' ')⟩

/-- The dispatcher's send guard (line 361):
`if content and (str(content).lower().strip(" ") != "none")`. -/
def sendGuard (content : String) : Bool :=
  decide (content ≠ "" ∧ pyStripSpaces (pyLower content) ≠ "none")

/-- One autoresponder configuration entry, as stored in the cache:
`{"enabled": bool, "response": str, "ignore_role": [...], "ignore_channel": [...]}`.
`enabled` is `Option Bool` because the code reads it with `.get("enabled")`
(a missing key behaves as `None`, which is falsy); the ignore lists are read
with `.get(..., [])`, so a missing list key is indistinguishable from `[]`
and both are modelled as the list. -/
structure ArEntry where
  enabled : Option Bool
  response : String
  ignore_role : List Int
  ignore_channel : List Int
  deriving DecidableEq, Repr

/-- Python truthiness of `data.get("enabled")`. -/
def truthyEnabled : Option Bool → Bool
  | none => false
  | some b => b

/-- The fields of an inbound `discord.Message` that the dispatcher reads:
`message.content`, `message.channel.id`, the ids of `message.author.roles`,
and `message.created_at.timestamp()`. -/
structure Message where
  content : String
  channel_id : Int
  author_roles : List Int
  timestamp : Int
  deriving DecidableEq, Repr

/-- Oracles for the external collaborators used inside the dispatcher loop:
`reMatch p s` is `re.fullmatch(rf"{p}", s, re.IGNORECASE)` — `.error ()`
when the pattern raises `re.error`, otherwise `.ok` of the match truthiness;
`renderOf name response` is the jinja2 compile/render outcome for the
entry's response with the message's variable mapping; `esc` is
`discord.utils.escape_mentions`. -/
structure DispatchEnv where
  reMatch : String → String → Except Unit Bool
  renderOf : String → String → RenderOutcome
  esc : String → String

/-- What the dispatcher did with one cache entry of the guild, in source
order of the guards at lines 337-362. -/
inductive Event where
  | skippedDisabledOrShort
  | skippedIgnoredChannel
  | skippedIgnoredRole
  | skippedRatelimited
  | matchedSent (content : String)
  | matchedNoSend
  | noMatch
  deriving DecidableEq, Repr

/-- Holds exactly for the events in which the entry was skipped before the
match/render stage. -/
def isSkipEvent : Event → Bool
  | .skippedDisabledOrShort => true
  | .skippedIgnoredChannel => true
  | .skippedIgnoredRole => true
  | .skippedRatelimited => true
  | _ => false

/-- The render-and-send stage for a matched entry (lines 356 and 361-362):
run `execute_jinja` on the entry's response, discard the error flag, and
send the content exactly when the send guard passes. -/
def renderEventOf (env : DispatchEnv) (name response : String) : Event :=
  let content := (execute_jinja env.esc name (env.renderOf name response) true).1
  if sendGuard content then .matchedSent content else .matchedNoSend

/-- The loop body of `AutoResponders.on_message` for one `(name, data)`
cache entry: the guard chain of lines 338-352, then the match attempt with
literal fallback (lines 354-359; `execute_jinja` raises nothing, so hoisting
the match decision out of the `try` is behaviour-preserving), then the send
guard (line 361).  Returns the entry's event and the rate-limiter state
after the entry. -/
def entryStep (env : DispatchEnv) (msg : Message) (st : RLState)
    (name : String) (data : ArEntry) : Event × RLState :=
  if truthyEnabled data.enabled = false ∨ name.length ≤ 5 then
    (.skippedDisabledOrShort, st)
  else if data.ignore_channel.contains msg.channel_id then
    (.skippedIgnoredChannel, st)
  else if msg.author_roles.any (fun r => data.ignore_role.contains r) then
    (.skippedIgnoredRole, st)
  else
    let rlCall := is_ratelimited st msg.timestamp
    if rlCall.1 then
      (.skippedRatelimited, rlCall.2)
    else
      let matched : Bool :=
        match env.reMatch name msg.content with
        | .ok b => b
        | .error _ => name == msg.content
      if matched then
        (renderEventOf env name data.response, rlCall.2)
      else
        (.noMatch, rlCall.2)

/-- The `for name, data in self.cache[message.guild.id].items()` loop of
`on_message` (dict iteration order = insertion order = list order), turned
into a trace of per-entry events together with the final bucket state. -/
def onMessageLoop (env : DispatchEnv) (msg : Message) :
    List (String × ArEntry) → RLState → List (String × Event) × RLState
  | [], st => ([], st)
  | (name, data) :: rest, st =>
      let step := entryStep env msg st name data
      let next := onMessageLoop env msg rest step.2
      ((name, step.1) :: next.1, next.2)

/-- The texts actually sent to the originating channel during one
`on_message` run, read off the trace. -/
def sendsOf (trace : List (String × Event)) : List String :=
  trace.filterMap fun p =>
    match p.2 with
    | .matchedSent c => some c
    | _ => none

/-- Transcribes `AutoResponders.on_message` including the early return of line 329:
no guild, bot author, or falsy (absent or empty) guild cache. -/
def on_message (env : DispatchEnv) (guild_cache : Option (List (String × ArEntry)))
    (author_bot : Bool) (msg : Message) (st : RLState) :
    List (String × Event) × RLState :=
  match guild_cache with
  | none => ([], st)
  | some entries =>
      if author_bot || entries.isEmpty then ([], st)
      else onMessageLoop env msg entries st

/-- Lookup in the guild's entry dict, modelled as first match in the
association list (`name in self.cache[gid]` / `self.cache[gid][name]`). -/
def cacheFind (cache : List (String × ArEntry)) (name : String) : Option ArEntry :=
  (cache.find? (fun p => p.1 == name)).map (fun p => p.2)

/-- Models `self.cache[gid][name]["enabled"] = v` on the association-list model. -/
def setEnabled (cache : List (String × ArEntry)) (name : String) (v : Bool) :
    List (String × ArEntry) :=
  cache.map fun p =>
    if p.1 == name then
      (p.1, { p.2 with enabled := some v })
    else p

/-- Transcribes `AutoResponders.autoresponder_add` at cache level (lines 195-221):
reject short names, duplicates and missing responses; test-render the
response (`from_auto_response=False`) and reject on error; otherwise insert
the new entry (dict insertion appends).  Returns the new cache and the
reply text. -/
def autoresponder_add (esc : String → String) (renderOf : String → String → RenderOutcome)
    (cache : List (String × ArEntry)) (name : String) (res : Option String) :
    List (String × ArEntry) × String :=
  if name.length ≤ 5 then
    (cache, "The name of the autoresponder must be longer than 5 characters.")
  else if (cacheFind cache name).isSome then
    (cache, "An autoresponder with that name already exists.")
  else
    match res with
    | none => (cache, "You must provide a response.")
    | some r =>
        if r == "" then (cache, "You must provide a response.")
        else
          let run := execute_jinja esc name (renderOf name r) false
          if run.2 then
            (cache, "Failed to add autoresponder `" ++ name ++ "`.\n\n`" ++ run.1 ++ "`")
          else
            (cache ++ [(name,
              { enabled := some true, response := r, ignore_role := [], ignore_channel := [] })],
              "Added autoresponder `" ++ name ++ "`.")

/-- Transcribes `AutoResponders.autoresponder_enable` at cache level (lines 285-298). -/
def autoresponder_enable (cache : List (String × ArEntry)) (name : String) :
    List (String × ArEntry) × String :=
  match cacheFind cache name with
  | none => (cache, "An autoresponder with that name does not exist.")
  | some e =>
      if truthyEnabled e.enabled then (cache, "That autoresponder is already enabled.")
      else (setEnabled cache name true, "Enabled autoresponder `" ++ name ++ "`.")

/-- Transcribes `AutoResponders.autoresponder_disable` at cache level (lines 300-313). -/
def autoresponder_disable (cache : List (String × ArEntry)) (name : String) :
    List (String × ArEntry) × String :=
  match cacheFind cache name with
  | none => (cache, "An autoresponder with that name does not exist.")
  | some e =>
      if truthyEnabled e.enabled = false then (cache, "That autoresponder is already disabled.")
      else (setEnabled cache name false, "Disabled autoresponder `" ++ name ++ "`.")

/-- Positivity of the configured rates (the source uses `rate = 3` for both
buckets). -/
def ratesOk (st : RLState) : Prop :=
  0 < st.cooldown.rate ∧ 0 < st.exceeded_cooldown.rate

/-- Concrete inputs for claim C1: two qualifying entries and a channel
whose buckets are already exhausted at the message's timestamp. -/
def c1Env : DispatchEnv :=
  { reMatch := fun _ _ => .ok false
    renderOf := fun _ _ => .ok "resp"
    esc := id }

def c1Entry : ArEntry :=
  { enabled := some true, response := "r", ignore_role := [], ignore_channel := [] }

def c1Msg : Message :=
  { content := "x", channel_id := 1, author_roles := [], timestamp := 5 }

def c1St : RLState :=
  { cooldown := { rate := 3, per := 10, window := 0, tokens := 0, last := 0 }
    exceeded_cooldown := { rate := 3, per := 10, window := 0, tokens := 0, last := 0 } }

/-- The single error-string shape asserted by claim C4:
`"Gave up executing <kind>.\nReason: `<ExceptionKind>: <message>`"`. -/
def c4ClaimedForm (kind ekind emsg : String) : String :=
  "Gave up executing " ++ kind ++ ".\nReason: `" ++ ekind ++ ": " ++ emsg ++ "`"

/-- A rendered output of 1991 characters. -/
def c5LongString : String :=
  ⟨List.replicate 1991 'x'⟩

/-- The list `disabled_operators` of `Environment.call_binop` (line 23). -/
def disabled_operators : List String :=
  ["//", "%", "**", "<<", ">>", "&", "^", "|", "*"]

/-- The class attribute `Environment.intercepted_binops` (line 20): the
operators the jinja2 sandbox compiler routes through `call_binop`. -/
def intercepted_binops : List String :=
  ["//", "%", "**", "<<", ">>", "&", "^", "|", "*"]

/-- Values produced by evaluating a template expression; `undefined` is the
jinja2 `Undefined` sentinel created by `self.undefined(hint, name=...)`. -/
inductive JinjaValue where
  | int (n : Int)
  | str (s : String)
  | undefined (hint : String) (name : String)
  deriving DecidableEq, Repr

/-- Transcribes `Environment.call_binop` (lines 22-27): return the undefined sentinel
for a disabled operator, otherwise defer to
`SandboxedEnvironment.call_binop` (external jinja2 code, the oracle
`superBinop`). -/
def Environment.call_binop (superBinop : String → JinjaValue → JinjaValue → JinjaValue)
    (op : String) (l r : JinjaValue) : JinjaValue :=
  if op ∈ disabled_operators then
    .undefined ("Undefined binary operator: " ++ op) op
  else superBinop op l r

/-- Evaluation of a binary operator inside the sandbox: jinja2 routes the
operator through `call_binop` exactly when it is in `intercepted_binops`,
and otherwise executes it natively (the oracle `superBinop`). -/
def sandboxEvalBinop (superBinop : String → JinjaValue → JinjaValue → JinjaValue)
    (op : String) (l r : JinjaValue) : JinjaValue :=
  if op ∈ intercepted_binops then Environment.call_binop superBinop op l r
  else superBinop op l r

/-- Native integer arithmetic for the operators, standing in for
`SandboxedEnvironment.call_binop`'s default behaviour. -/
def c6SuperBinop : String → JinjaValue → JinjaValue → JinjaValue := fun op l r =>
  match op, l, r with
  | "**", .int a, .int b => .int (a ^ b.toNat)
  | "*", .int a, .int b => .int (a * b)
  | _, _, _ => .undefined "unmodelled" "unmodelled"

/-- A matcher oracle that reports a successful regex match. -/
def c7Env : DispatchEnv :=
  { reMatch := fun _ _ => .ok true
    renderOf := fun _ _ => .ok "resp"
    esc := id }

/-- The entry of claim C8's scenario (response
`"<@{{ message.author.id }}>"`). -/
def c8Entry : ArEntry :=
  { enabled := some true, response := "<@\x7b\x7b message.author.id \x7d\x7d>",
    ignore_role := [], ignore_channel := [] }

/-- Oracles for claim C8.  The matcher models Python
`re.fullmatch(p, s, re.IGNORECASE)` for a pattern `p` free of regex
metacharacters (such as `"hello"` and `"helloo"`): it matches exactly the
strings equal to `p` up to case.  The renderer returns the author mention
that `"<@{{ message.author.id }}>"` renders to. -/
def c8Env : DispatchEnv :=
  { reMatch := fun p s => .ok (pyLower p == pyLower s)
    renderOf := fun _ _ => .ok "<@12345>"
    esc := id }

def c8Msg (s : String) : Message :=
  { content := s, channel_id := 1, author_roles := [], timestamp := 100 }

/-- The frame relation of claim C9 between an entry before and after a
command: same name, same `response`, `ignore_role` and `ignore_channel`,
and — for entries other than the one addressed — no change at all (so at
most the `enabled` field of the addressed entry differs). -/
def arFrame (name : String) (p q : String × ArEntry) : Prop :=
  p.1 = q.1 ∧ p.2.response = q.2.response ∧ p.2.ignore_role = q.2.ignore_role ∧
    p.2.ignore_channel = q.2.ignore_channel ∧ (p.1 ≠ name → p.2 = q.2)

/-- Oracles for claim C10's witness: a matching pattern and a render that
raises a `TemplateSyntaxError`. -/
def c10Env : DispatchEnv :=
  { reMatch := fun _ _ => .ok true
    renderOf := fun _ _ => .exc "TemplateSyntaxError" "unexpected char"
    esc := id }

/-! ### Rate-limiter lemmas -/

theorem Cooldown.update_rate (c : Cooldown) (t : Int) :
    (c.update_rate_limit t).2.rate = c.rate ∧ (c.update_rate_limit t).2.per = c.per := by
  simp only [Cooldown.update_rate_limit]
  split <;> exact ⟨rfl, rfl⟩

/-- A bucket that has just reported a rate limit at time `t` reports a rate
limit again on the very next `update_rate_limit` at the same time `t`. -/
theorem Cooldown.limited_persists (c : Cooldown) (t : Int) (hr : 0 < c.rate)
    (h : optTruthy (c.update_rate_limit t).1 = true) :
    optTruthy ((c.update_rate_limit t).2.update_rate_limit t).1 = true := by
  simp only [Cooldown.update_rate_limit, Cooldown.get_tokens] at h ⊢
  split_ifs at h ⊢ <;> simp_all [optTruthy] <;> omega

theorem is_ratelimited_preserves_ratesOk (st : RLState) (t : Int) (h : ratesOk st) :
    ratesOk (is_ratelimited st t).2 := by
  obtain ⟨h1, h2⟩ := h
  simp only [is_ratelimited]
  split
  · exact ⟨h1, (Cooldown.update_rate st.exceeded_cooldown t).1 ▸ h2⟩
  · exact ⟨(Cooldown.update_rate st.cooldown t).1 ▸ h1,
      (Cooldown.update_rate st.exceeded_cooldown t).1 ▸ h2⟩

/-- Once `is_ratelimited` has returned `True` at time `t`, the very next
call at the same time `t` (on the updated state) returns `True` again. -/
theorem is_ratelimited_persists (st : RLState) (t : Int) (h : ratesOk st)
    (hl : (is_ratelimited st t).1 = true) :
    (is_ratelimited (is_ratelimited st t).2 t).1 = true := by
  obtain ⟨h1, h2⟩ := h
  simp only [is_ratelimited] at hl ⊢
  by_cases hex : optTruthy (st.exceeded_cooldown.update_rate_limit t).1 = true
  · have hex' := Cooldown.limited_persists st.exceeded_cooldown t h2 hex
    simp [hex, hex']
  · rw [Bool.not_eq_true] at hex
    simp only [hex, Bool.false_eq_true, if_false] at hl ⊢
    by_cases hex2 : optTruthy ((st.exceeded_cooldown.update_rate_limit t).2.update_rate_limit t).1 = true
    · simp [hex2]
    · rw [Bool.not_eq_true] at hex2
      simp only [hex2, Bool.false_eq_true, if_false]
      exact Cooldown.limited_persists st.cooldown t h1 hl

/-! ### Send-guard lemmas -/

/-- Any string starting with `"Gave up executing "` passes the dispatcher's
send guard: it is nonempty, and after lowering and space-stripping it still
starts with `'g'`, hence differs from `"none"`. -/
theorem sendGuard_gaveup (r : String) :
    sendGuard ("Gave up executing " ++ r) = true := by
  have hdata : ("Gave up executing " ++ r).data = 'G' :: ("ave up executing ".data ++ r.data) :=
    rfl
  rw [sendGuard, decide_eq_true_eq]
  constructor
  · intro hcontra
    have : ("Gave up executing " ++ r).data = ("" : String).data := by rw [hcontra]
    rw [hdata] at this
    exact List.noConfusion this
  · intro hcontra
    have hd : (pyStripSpaces (pyLower ("Gave up executing " ++ r))).data = ("none" : String).data := by
      rw [hcontra]
    have hlow : (pyLower ("Gave up executing " ++ r)).data =
        'g' :: ("ave up executing ".data.map Char.toLower ++ r.data.map Char.toLower) := by
      show ("Gave up executing " ++ r).data.map Char.toLower = _
      rw [hdata]
      simp
    rw [pyStripSpaces] at hd
    rw [hlow] at hd
    rw [List.dropWhile_cons] at hd
    simp only [show (('g' : Char) == ' ') = false from rfl, Bool.false_eq_true, if_false] at hd
    have hpre : List.rdropWhile (fun c => c == ' ')
        ('g' :: ("ave up executing ".data.map Char.toLower ++ r.data.map Char.toLower)) <+:
        'g' :: ("ave up executing ".data.map Char.toLower ++ r.data.map Char.toLower) :=
      List.rdropWhile_prefix _ _
    rw [hd] at hpre
    obtain ⟨t, ht⟩ := hpre
    have : ('n' : Char) = 'g' := by
      have := congrArg (fun l => l.headI) ht
      simpa using this
    exact absurd this (by decide)

/-- All error results of `execute_jinja` pass the dispatcher's send guard
(they all start with `"Gave up executing "`). -/
theorem sendGuard_execute_jinja_error (esc : String → String) (trigger : String)
    (outcome : RenderOutcome) (b : Bool)
    (h : (execute_jinja esc trigger outcome b).2 = true) :
    sendGuard (execute_jinja esc trigger outcome b).1 = true := by
  cases outcome with
  | ok ret =>
      by_cases hlen : ret.length > 1990
      · simp only [execute_jinja, hlen, if_pos]
        rw [String.append_assoc, String.append_assoc, String.append_assoc]
        exact sendGuard_gaveup _
      · simp [execute_jinja, hlen] at h
  | exc ek em =>
      simp only [execute_jinja]
      rw [String.append_assoc, String.append_assoc, String.append_assoc]
      exact sendGuard_gaveup _
  | timeout ek em =>
      simp only [execute_jinja]
      rw [String.append_assoc, String.append_assoc, String.append_assoc, String.append_assoc,
        String.append_assoc]
      exact sendGuard_gaveup _

/-! ### Dispatcher control-flow lemmas -/

theorem entryStep_ratesOk (env : DispatchEnv) (msg : Message) (st : RLState)
    (name : String) (data : ArEntry) (h : ratesOk st) :
    ratesOk (entryStep env msg st name data).2 := by
  simp only [entryStep]
  split_ifs <;>
    first
      | exact h
      | exact is_ratelimited_preserves_ratesOk st msg.timestamp h

/-- If the rate limiter is already reporting a limit at the message's
timestamp, the entry is skipped (one of the four skip events) and the
limiter still reports a limit afterwards. -/
theorem entryStep_limited (env : DispatchEnv) (msg : Message) (st : RLState)
    (name : String) (data : ArEntry) (h : ratesOk st)
    (hl : (is_ratelimited st msg.timestamp).1 = true) :
    isSkipEvent (entryStep env msg st name data).1 = true ∧
    ratesOk (entryStep env msg st name data).2 ∧
    (is_ratelimited (entryStep env msg st name data).2 msg.timestamp).1 = true := by
  simp only [entryStep]
  split_ifs
  all_goals
    first
      | exact ⟨rfl, h, hl⟩
      | exact ⟨rfl, is_ratelimited_preserves_ratesOk st msg.timestamp h,
          is_ratelimited_persists st msg.timestamp h hl⟩
      | exact absurd hl (by assumption)

theorem renderEventOf_ne_skip (env : DispatchEnv) (name response : String) :
    renderEventOf env name response ≠ Event.skippedRatelimited := by
  intro h
  simp only [renderEventOf] at h
  split at h <;> simp at h

/-- Inversion: the `skippedRatelimited` event can only come from the
rate-limit branch, whose state is the updated limiter state. -/
theorem entryStep_ratelimited_inv (env : DispatchEnv) (msg : Message) (st : RLState)
    (name : String) (data : ArEntry)
    (h : (entryStep env msg st name data).1 = .skippedRatelimited) :
    (is_ratelimited st msg.timestamp).1 = true ∧
    (entryStep env msg st name data).2 = (is_ratelimited st msg.timestamp).2 := by
  simp only [entryStep] at h ⊢
  split_ifs at h ⊢ with hA hB hC hRL hM
  all_goals
    first
      | exact Event.noConfusion h
      | exact ⟨hRL, rfl⟩
      | exact absurd h (renderEventOf_ne_skip env name data.response)

/-- Once the limiter reports a limit, every remaining entry of the loop is
skipped (it is still *evaluated*, but yields a skip event). -/
theorem onMessageLoop_limited (env : DispatchEnv) (msg : Message)
    (es : List (String × ArEntry)) (st : RLState) (h : ratesOk st)
    (hl : (is_ratelimited st msg.timestamp).1 = true) :
    ∀ p ∈ (onMessageLoop env msg es st).1, isSkipEvent p.2 = true := by
  induction es generalizing st with
  | nil => simp [onMessageLoop]
  | cons e rest ih =>
      obtain ⟨name, data⟩ := e
      simp only [onMessageLoop, List.mem_cons]
      rintro p (rfl | hp)
      · exact (entryStep_limited env msg st name data h hl).1
      · exact ih (entryStep env msg st name data).2
          (entryStep_limited env msg st name data h hl).2.1
          (entryStep_limited env msg st name data h hl).2.2 p hp

/-- An entry that passes the enabled/length, ignore and rate-limit gates
reaches the match stage, whose result is the regex decision with literal
fallback. -/
theorem entryStep_pass_gates (env : DispatchEnv) (msg : Message) (st : RLState)
    (name : String) (data : ArEntry)
    (hen : truthyEnabled data.enabled = true) (hlen : 5 < name.length)
    (hch : data.ignore_channel.contains msg.channel_id = false)
    (hrole : (msg.author_roles.any fun r => data.ignore_role.contains r) = false)
    (hrl : (is_ratelimited st msg.timestamp).1 = false) :
    entryStep env msg st name data =
      ((if (match env.reMatch name msg.content with
            | .ok b => b
            | .error _ => name == msg.content) then
          renderEventOf env name data.response
        else Event.noMatch), (is_ratelimited st msg.timestamp).2) := by
  have hlen' : ¬ name.length ≤ 5 := by omega
  rw [entryStep, if_neg (by rw [hen]; simp [hlen']), if_neg (by rw [hch]; simp),
    if_neg (by rw [hrole]; simp)]
  simp only [hrl, Bool.false_eq_true, if_false]
  split <;> rfl

/-! ### Claim C1 -/

/-- Claim C1, counterexample.  The claim says a rate-limited check stops
processing of the entire message: no further autoresponders of the guild
are evaluated.  On the code (`continue` at line 352, not `break`), after
the first entry is skipped as rate-limited the loop goes on to the second
entry and evaluates it (running its guard chain and a fresh rate-limit
check): the trace has a second event after the rate-limited one, instead
of ending there. -/
theorem c1_counterexample :
    (onMessageLoop c1Env c1Msg [("abcdef", c1Entry), ("ghijkl", c1Entry)] c1St).1 =
      [("abcdef", Event.skippedRatelimited), ("ghijkl", Event.skippedRatelimited)] ∧
    (onMessageLoop c1Env c1Msg [("abcdef", c1Entry), ("ghijkl", c1Entry)] c1St).1.length ≠ 1 := by
  constructor
  · decide
  · decide

/-- Claim C1 (amended).  When the rate limiter reports the channel as
rate-limited while a candidate autoresponder is considered, only that entry
is skipped (`continue`): later entries of the guild are still evaluated.
However, the limiter keeps reporting a limit at the same message timestamp,
so every later entry is also skipped — in particular no later autoresponder
fires for that message. -/
theorem c1_ratelimited_no_later_fires (env : DispatchEnv) (msg : Message)
    (es : List (String × ArEntry)) (st : RLState) (h : ratesOk st)
    (pre post : List (String × Event)) (nm : String)
    (hdec : (onMessageLoop env msg es st).1 =
      pre ++ (nm, Event.skippedRatelimited) :: post) :
    ∀ p ∈ post, isSkipEvent p.2 = true := by
  induction es generalizing st pre with
  | nil =>
      rw [onMessageLoop] at hdec
      cases pre <;> simp at hdec
  | cons e rest ih =>
      obtain ⟨name, data⟩ := e
      simp only [onMessageLoop] at hdec
      cases pre with
      | nil =>
          rw [List.nil_append] at hdec
          injection hdec with h1 h2
          have hev : (entryStep env msg st name data).1 = Event.skippedRatelimited :=
            congrArg Prod.snd h1
          obtain ⟨hlim, hst⟩ := entryStep_ratelimited_inv env msg st name data hev
          intro p hp
          rw [← h2] at hp
          refine onMessageLoop_limited env msg rest (entryStep env msg st name data).2
            (entryStep_ratesOk env msg st name data h) ?_ p hp
          rw [hst]
          exact is_ratelimited_persists st msg.timestamp h hlim
      | cons q pre' =>
          injection hdec with h1 h2
          exact ih (entryStep env msg st name data).2
            (entryStep_ratesOk env msg st name data h) pre' h2

/-- Claim C1, witness. -/
theorem c1_witness :
    isSkipEvent (("ghijkl", Event.skippedRatelimited) : String × Event).2 = true :=
  c1_ratelimited_no_later_fires c1Env c1Msg [("abcdef", c1Entry), ("ghijkl", c1Entry)] c1St
    ⟨by decide, by decide⟩ [] [("ghijkl", Event.skippedRatelimited)] "abcdef" (by decide)
    ("ghijkl", Event.skippedRatelimited) (by decide)

/-! ### Claim C2 -/

/-- Claim C2, counterexample.  With both buckets fresh (the primary bucket
holds all 3 tokens, so it is not exhausted), a single `is_ratelimited`
call still changes the exceeded bucket's state: its token count drops from
3 to 2.  The exceeded bucket is consumed on every call, not only once the
primary is exhausted. -/
theorem c2_counterexample :
    0 < initialRLState.cooldown.get_tokens 100 ∧
    (is_ratelimited initialRLState 100).2.exceeded_cooldown ≠
      initialRLState.exceeded_cooldown ∧
    (is_ratelimited initialRLState 100).2.exceeded_cooldown.tokens =
      initialRLState.exceeded_cooldown.tokens - 1 := by
  refine ⟨by decide, by decide, by decide⟩

/-- Claim C2 (amended).  `is_ratelimited` updates the exceeded bucket first
and unconditionally — regardless of the primary bucket's token count — and
updates the primary bucket only when the exceeded bucket does not report a
rate limit. -/
theorem c2_exceeded_always_updated (st : RLState) (t : Int) :
    (is_ratelimited st t).2.exceeded_cooldown =
      (st.exceeded_cooldown.update_rate_limit t).2 ∧
    (optTruthy (st.exceeded_cooldown.update_rate_limit t).1 = true →
      (is_ratelimited st t).2.cooldown = st.cooldown) ∧
    (optTruthy (st.exceeded_cooldown.update_rate_limit t).1 = false →
      (is_ratelimited st t).2.cooldown = (st.cooldown.update_rate_limit t).2) := by
  simp only [is_ratelimited]
  by_cases hex : optTruthy (st.exceeded_cooldown.update_rate_limit t).1 = true
  · simp [hex]
  · rw [Bool.not_eq_true] at hex
    simp [hex]

/-- Claim C2, witness. -/
theorem c2_witness :
    (is_ratelimited initialRLState 100).2.exceeded_cooldown =
      (initialRLState.exceeded_cooldown.update_rate_limit 100).2 :=
  (c2_exceeded_always_updated initialRLState 100).1

/-! ### Claim C3 -/

/-- Claim C3.  A name of length at most 5 is rejected by the add command (the
cache is returned unchanged), and every cache entry whose name has length
at most 5 — however it entered the cache — is skipped by the dispatcher
before the match/render stage (its event is `skippedDisabledOrShort`), so
it is never rendered or sent. -/
theorem c3_short_names_never_fire :
    (∀ (esc : String → String) (renderOf : String → String → RenderOutcome)
        (cache : List (String × ArEntry)) (name : String) (res : Option String),
      name.length ≤ 5 → (autoresponder_add esc renderOf cache name res).1 = cache) ∧
    (∀ (env : DispatchEnv) (msg : Message) (es : List (String × ArEntry)) (st : RLState),
      ∀ p ∈ (onMessageLoop env msg es st).1, p.1.length ≤ 5 →
        p.2 = Event.skippedDisabledOrShort) := by
  constructor
  · intro esc renderOf cache name res h
    unfold autoresponder_add
    rw [if_pos h]
  · intro env msg es
    induction es with
    | nil =>
        intro st p hp
        rw [onMessageLoop] at hp
        simp at hp
    | cons e rest ih =>
        obtain ⟨name, data⟩ := e
        intro st p hp hlen
        simp only [onMessageLoop, List.mem_cons] at hp
        rcases hp with rfl | hp
        · show (entryStep env msg st name data).1 = _
          rw [entryStep, if_pos (Or.inr hlen)]
        · exact ih (entryStep env msg st name data).2 p hp hlen

/-- Claim C3, witness. -/
theorem c3_witness :
    (autoresponder_add id (fun _ _ => RenderOutcome.ok "r") [] "abc" (some "r")).1 = [] ∧
    (("hello", Event.skippedDisabledOrShort) : String × Event).2 =
      Event.skippedDisabledOrShort :=
  ⟨c3_short_names_never_fire.1 id (fun _ _ => RenderOutcome.ok "r") [] "abc" (some "r")
      (by decide),
    c3_short_names_never_fire.2 c1Env c1Msg [("hello", c1Entry)] initialRLState
      ("hello", Event.skippedDisabledOrShort) (by decide) (by decide)⟩

/-! ### Claim C4 -/

/-- Claim C4, counterexample.  A failure that escapes to the outer handler —
the 0.3-second timeout in particular — is reported with the trigger
embedded after the kind (`"Gave up executing autoresponder - `abcdef`.…"`),
which does not have the single claimed shape for either kind, whatever
exception name and message are plugged in. -/
theorem c4_counterexample :
    (execute_jinja id "abcdef" (RenderOutcome.timeout "TimeoutError" "") true).2 = true ∧
    ¬ ∃ (kind ekind emsg : String),
        (kind = "autoresponder" ∨ kind = "jinja2") ∧
        (execute_jinja id "abcdef" (RenderOutcome.timeout "TimeoutError" "") true).1 =
          c4ClaimedForm kind ekind emsg := by
  constructor
  · rfl
  · rintro ⟨kind, ekind, emsg, hk | hk, heq⟩ <;> subst hk
    · have h1 : (execute_jinja id "abcdef" (RenderOutcome.timeout "TimeoutError" "") true).1 =
          ("Gave up executing " ++ "autoresponder" ++ ".\nReason: `") ++
            (ekind ++ (": " ++ (emsg ++ "`"))) := by
        rw [heq]
        simp [c4ClaimedForm, String.append_assoc]
      have hpre : ("Gave up executing " ++ "autoresponder" ++ ".\nReason: `" : String).data <+:
          (execute_jinja id "abcdef" (RenderOutcome.timeout "TimeoutError" "") true).1.data :=
        ⟨(ekind ++ (": " ++ (emsg ++ "`"))).data, by rw [h1]; rfl⟩
      exact absurd hpre (by decide)
    · have h1 : (execute_jinja id "abcdef" (RenderOutcome.timeout "TimeoutError" "") true).1 =
          ("Gave up executing " ++ "jinja2" ++ ".\nReason: `") ++
            (ekind ++ (": " ++ (emsg ++ "`"))) := by
        rw [heq]
        simp [c4ClaimedForm, String.append_assoc]
      have hpre : ("Gave up executing " ++ "jinja2" ++ ".\nReason: `" : String).data <+:
          (execute_jinja id "abcdef" (RenderOutcome.timeout "TimeoutError" "") true).1.data :=
        ⟨(ekind ++ (": " ++ (emsg ++ "`"))).data, by rw [h1]; rfl⟩
      exact absurd hpre (by decide)

/-- Claim C4 (amended).  `execute_jinja` never propagates a failure: every
failing outcome yields `isError = true` and a diagnostic string — of the
claimed shape `"Gave up executing <kind>.\nReason: `<E>: <m>`"` for
exceptions caught inside the render block, and of the shape
`"Gave up executing <kind> - `<escaped trigger>`.\nReason: `<E>: <m>`"`
for failures escaping to the outer handler (the 0.3-second timeout in
particular). -/
theorem c4_error_string_shapes (esc : String → String) (trigger ek em : String) (b : Bool) :
    execute_jinja esc trigger (.exc ek em) b =
      ("Gave up executing " ++ executing_what b ++ ".\nReason: `" ++ ek ++ ": " ++ em ++ "`",
        true) ∧
    execute_jinja esc trigger (.timeout ek em) b =
      ("Gave up executing " ++ executing_what b ++ " - `" ++ esc trigger ++ "`.\nReason: `" ++
        ek ++ ": " ++ em ++ "`", true) :=
  ⟨rfl, rfl⟩

/-! ### Claim C5 -/

/-- Claim C5.  When the render succeeds, output longer than 1990 characters
is rejected as an error with a "too long" reason (nothing is truncated, the
text is not returned), and output of length at most 1990 is returned
verbatim with `isError = false`. -/
theorem c5_length_gate (esc : String → String) (trigger ret : String) (b : Bool) :
    (1990 < ret.length →
      execute_jinja esc trigger (.ok ret) b =
        ("Gave up executing " ++ executing_what b ++ " - `" ++ esc trigger ++
          "`.\nReason: `Response is too long`", true)) ∧
    (ret.length ≤ 1990 → execute_jinja esc trigger (.ok ret) b = (ret, false)) := by
  constructor
  · intro h
    show (if ret.length > 1990 then _ else _) = _
    rw [if_pos h]
  · intro h
    show (if ret.length > 1990 then _ else _) = _
    rw [if_neg (by omega)]

/-- Claim C5, witness. -/
theorem c5_witness :
    execute_jinja id "t" (RenderOutcome.ok c5LongString) true =
      ("Gave up executing " ++ executing_what true ++ " - `" ++ id "t" ++
        "`.\nReason: `Response is too long`", true) ∧
    execute_jinja id "t" (RenderOutcome.ok "hi") true = ("hi", false) :=
  ⟨(c5_length_gate id "t" c5LongString true).1
      (by show 1990 < (List.replicate 1991 'x').length; rw [List.length_replicate]; omega),
    (c5_length_gate id "t" "hi" true).2 (by decide)⟩

/-! ### Claim C6 -/

/-- Claim C6.  Every disabled operator evaluates, inside the sandbox, to the
undefined sentinel — never to a numeric result — whatever the operands and
whatever the native operator semantics would have produced. -/
theorem c6_disabled_binops_undefined
    (superBinop : String → JinjaValue → JinjaValue → JinjaValue)
    (op : String) (l r : JinjaValue) (h : op ∈ disabled_operators) :
    sandboxEvalBinop superBinop op l r =
      .undefined ("Undefined binary operator: " ++ op) op ∧
    ∀ n : Int, sandboxEvalBinop superBinop op l r ≠ .int n := by
  have hint : op ∈ intercepted_binops := h
  constructor
  · rw [sandboxEvalBinop, if_pos hint, Environment.call_binop, if_pos h]
  · intro n hcontra
    rw [sandboxEvalBinop, if_pos hint, Environment.call_binop, if_pos h] at hcontra
    exact JinjaValue.noConfusion hcontra

/-- Claim C6, witness.  `{{ 2 ** 3 }}` yields the undefined sentinel, not 8. -/
theorem c6_witness :
    sandboxEvalBinop c6SuperBinop "**" (.int 2) (.int 3) =
      .undefined ("Undefined binary operator: " ++ "**") "**" ∧
    sandboxEvalBinop c6SuperBinop "**" (.int 2) (.int 3) ≠ .int 8 :=
  ⟨(c6_disabled_binops_undefined c6SuperBinop "**" (.int 2) (.int 3) (by decide)).1,
    (c6_disabled_binops_undefined c6SuperBinop "**" (.int 2) (.int 3) (by decide)).2 8⟩

/-! ### Claim C7 -/

/-- Claim C7.  For an entry that reaches the match stage, the dispatcher
decides by the regex result whenever `re.fullmatch` returns (whether it
matched or not — literal equality is *not* consulted then), and it falls
back to literal case-sensitive equality exactly when the regex attempt
raises `re.error`. -/
theorem c7_regex_first_literal_fallback (env : DispatchEnv) (msg : Message) (st : RLState)
    (name : String) (data : ArEntry)
    (hen : truthyEnabled data.enabled = true) (hlen : 5 < name.length)
    (hch : data.ignore_channel.contains msg.channel_id = false)
    (hrole : (msg.author_roles.any fun r => data.ignore_role.contains r) = false)
    (hrl : (is_ratelimited st msg.timestamp).1 = false) :
    (∀ b : Bool, env.reMatch name msg.content = .ok b →
      (entryStep env msg st name data).1 =
        (if b then renderEventOf env name data.response else Event.noMatch)) ∧
    (env.reMatch name msg.content = .error () →
      (entryStep env msg st name data).1 =
        (if name == msg.content then renderEventOf env name data.response
         else Event.noMatch)) := by
  rw [entryStep_pass_gates env msg st name data hen hlen hch hrole hrl]
  constructor
  · intro b hb
    rw [hb]
  · intro hb
    rw [hb]

/-- Claim C7, witness. -/
theorem c7_witness :
    (entryStep c7Env c1Msg initialRLState "abcdef" c1Entry).1 =
      (if true then renderEventOf c7Env "abcdef" c1Entry.response else Event.noMatch) :=
  (c7_regex_first_literal_fallback c7Env c1Msg initialRLState "abcdef" c1Entry
    (by decide) (by decide) (by decide) (by decide) (by decide)).1 true rfl

/-! ### Claim C8 -/

/-- Claim C8, counterexample.  The claim's own example name `"hello"` has
length 5, so the dispatcher's `len(name) <= 5` guard (line 338) skips the
entry before any matching: the message `"hello"` triggers no send at all. -/
theorem c8_counterexample :
    (onMessageLoop c8Env (c8Msg "hello") [("hello", c8Entry)] initialRLState).1 =
      [("hello", Event.skippedDisabledOrShort)] ∧
    sendsOf (onMessageLoop c8Env (c8Msg "hello") [("hello", c8Entry)] initialRLState).1 =
      [] :=
  ⟨by decide, by decide⟩

/-- Claim C8 (amended).  For an enabled autoresponder whose name is longer
than 5 characters — e.g. `"helloo"` — a message whose content equals the
name in any letter case matches (case-insensitive full match) and triggers
a send of the rendered response, while a message with the name as a proper
prefix (`"helloo world"`) does not match.  The spec's example name
`"hello"` itself is skipped by the length guard and can never fire. -/
theorem c8_fullmatch_case_insensitive (s : String) (h : pyLower s = "helloo") :
    (onMessageLoop c8Env (c8Msg s) [("helloo", c8Entry)] initialRLState).1 =
      [("helloo", Event.matchedSent "<@12345>")] ∧
    (onMessageLoop c8Env (c8Msg "helloo world") [("helloo", c8Entry)] initialRLState).1 =
      [("helloo", Event.noMatch)] := by
  refine ⟨?_, by decide⟩
  have hstep : (entryStep c8Env (c8Msg s) initialRLState "helloo" c8Entry).1 =
      Event.matchedSent "<@12345>" := by
    rw [entryStep_pass_gates c8Env (c8Msg s) initialRLState "helloo" c8Entry
      (by decide) (by decide) rfl rfl rfl]
    have hm : c8Env.reMatch "helloo" (c8Msg s).content = .ok true := by
      show Except.ok (pyLower "helloo" == pyLower s) = Except.ok true
      rw [h, show (pyLower "helloo" == "helloo") = true from by decide]
    rw [hm]
    show renderEventOf c8Env "helloo" c8Entry.response = Event.matchedSent "<@12345>"
    decide
  simp only [onMessageLoop]
  rw [hstep]

/-- Claim C8, witness. -/
theorem c8_witness :
    (onMessageLoop c8Env (c8Msg "HeLLoo") [("helloo", c8Entry)] initialRLState).1 =
      [("helloo", Event.matchedSent "<@12345>")] ∧
    (onMessageLoop c8Env (c8Msg "helloo world") [("helloo", c8Entry)] initialRLState).1 =
      [("helloo", Event.noMatch)] :=
  c8_fullmatch_case_insensitive "HeLLoo" (by decide)

/-! ### Claim C9 -/

theorem arFrame_refl (name : String) (p : String × ArEntry) : arFrame name p p :=
  ⟨rfl, rfl, rfl, rfl, fun _ => rfl⟩

theorem forall₂_arFrame_refl (name : String) (l : List (String × ArEntry)) :
    List.Forall₂ (arFrame name) l l :=
  List.forall₂_same.mpr fun p _ => arFrame_refl name p

theorem forall₂_arFrame_setEnabled (name : String) (l : List (String × ArEntry)) (v : Bool) :
    List.Forall₂ (arFrame name) l (setEnabled l name v) := by
  induction l with
  | nil => exact List.Forall₂.nil
  | cons p rest ih =>
      refine List.Forall₂.cons ?_ ih
      by_cases hp : p.1 == name
      · show arFrame name p (if p.1 == name then (p.1, { p.2 with enabled := some v }) else p)
        rw [if_pos hp]
        exact ⟨rfl, rfl, rfl, rfl, fun hne => absurd (eq_of_beq hp) hne⟩
      · show arFrame name p (if p.1 == name then (p.1, { p.2 with enabled := some v }) else p)
        rw [if_neg hp]
        exact arFrame_refl name p

theorem forall₂_arFrame_trans (name : String) :
    ∀ {l1 l2 l3 : List (String × ArEntry)}, List.Forall₂ (arFrame name) l1 l2 →
      List.Forall₂ (arFrame name) l2 l3 → List.Forall₂ (arFrame name) l1 l3 := by
  intro l1 l2 l3 h12
  induction h12 generalizing l3 with
  | nil => intro h23; cases h23; exact .nil
  | cons hpq h12' ih =>
      intro h23
      cases h23 with
      | cons hqr h23' =>
          refine .cons ?_ (ih h23')
          obtain ⟨h1, h2, h3, h4, h5⟩ := hpq
          obtain ⟨g1, g2, g3, g4, g5⟩ := hqr
          exact ⟨h1.trans g1, h2.trans g2, h3.trans g3, h4.trans g4,
            fun hne => (h5 hne).trans (g5 (h1 ▸ hne))⟩

theorem disable_frame (cache : List (String × ArEntry)) (name : String) :
    List.Forall₂ (arFrame name) cache (autoresponder_disable cache name).1 := by
  unfold autoresponder_disable
  cases hf : cacheFind cache name with
  | none => exact forall₂_arFrame_refl name cache
  | some e =>
      dsimp only
      split_ifs with he
      · exact forall₂_arFrame_refl name cache
      · exact forall₂_arFrame_setEnabled name cache false

theorem enable_frame (cache : List (String × ArEntry)) (name : String) :
    List.Forall₂ (arFrame name) cache (autoresponder_enable cache name).1 := by
  unfold autoresponder_enable
  cases hf : cacheFind cache name with
  | none => exact forall₂_arFrame_refl name cache
  | some e =>
      dsimp only
      split_ifs with he
      · exact forall₂_arFrame_refl name cache
      · exact forall₂_arFrame_setEnabled name cache true

/-- Claim C9.  The disable command, the enable command, and the
disable-then-enable sequence each change at most the `enabled` field of the
addressed entry: name, `response`, `ignore_role` and `ignore_channel` of
every entry are preserved, and entries with a different name are untouched
entirely. -/
theorem c9_enable_disable_touch_only_enabled (cache : List (String × ArEntry))
    (name : String) :
    List.Forall₂ (arFrame name) cache (autoresponder_disable cache name).1 ∧
    List.Forall₂ (arFrame name) cache (autoresponder_enable cache name).1 ∧
    List.Forall₂ (arFrame name) cache
      (autoresponder_enable (autoresponder_disable cache name).1 name).1 :=
  ⟨disable_frame cache name, enable_frame cache name,
    forall₂_arFrame_trans name (disable_frame cache name)
      (enable_frame (autoresponder_disable cache name).1 name)⟩

/-- Claim C9, witness. -/
theorem c9_witness :
    List.Forall₂ (arFrame "abcdef") [("abcdef", c1Entry)]
      (autoresponder_enable
        (autoresponder_disable [("abcdef", c1Entry)] "abcdef").1 "abcdef").1 :=
  (c9_enable_disable_touch_only_enabled [("abcdef", c1Entry)] "abcdef").2.2

/-! ### Claim C10 -/

/-- Claim C10.  When a matched entry's template execution fails — by an
exception caught in the render block, by the 0.3-second timeout escaping to
the outer handler, or by oversized output — `execute_jinja` reports
`isError = true`, but the dispatcher discards the flag, and — since each
diagnostic starts with `"Gave up executing"`, hence is nonempty and does
not strip-lower to `"none"` — it sends the diagnostic string itself to the
channel as if it were a normal response. -/
theorem c10_error_string_sent (env : DispatchEnv) (msg : Message) (st : RLState)
    (name : String) (data : ArEntry)
    (hen : truthyEnabled data.enabled = true) (hlen : 5 < name.length)
    (hch : data.ignore_channel.contains msg.channel_id = false)
    (hrole : (msg.author_roles.any fun r => data.ignore_role.contains r) = false)
    (hrl : (is_ratelimited st msg.timestamp).1 = false)
    (hmatch : env.reMatch name msg.content = .ok true) :
    (∀ ek em : String, env.renderOf name data.response = .exc ek em →
      (execute_jinja env.esc name (env.renderOf name data.response) true).2 = true ∧
      (entryStep env msg st name data).1 = Event.matchedSent
        ("Gave up executing " ++ executing_what true ++ ".\nReason: `" ++ ek ++ ": " ++
          em ++ "`")) ∧
    (∀ ek em : String, env.renderOf name data.response = .timeout ek em →
      (execute_jinja env.esc name (env.renderOf name data.response) true).2 = true ∧
      (entryStep env msg st name data).1 = Event.matchedSent
        ("Gave up executing " ++ executing_what true ++ " - `" ++ env.esc name ++
          "`.\nReason: `" ++ ek ++ ": " ++ em ++ "`")) ∧
    (∀ ret : String, env.renderOf name data.response = .ok ret → 1990 < ret.length →
      (execute_jinja env.esc name (env.renderOf name data.response) true).2 = true ∧
      (entryStep env msg st name data).1 = Event.matchedSent
        ("Gave up executing " ++ executing_what true ++ " - `" ++ env.esc name ++
          "`.\nReason: `Response is too long`")) := by
  have key : (execute_jinja env.esc name (env.renderOf name data.response) true).2 = true →
      (entryStep env msg st name data).1 =
        Event.matchedSent
          (execute_jinja env.esc name (env.renderOf name data.response) true).1 := by
    intro hflag
    rw [entryStep_pass_gates env msg st name data hen hlen hch hrole hrl, hmatch]
    show renderEventOf env name data.response = _
    simp only [renderEventOf]
    rw [if_pos (sendGuard_execute_jinja_error env.esc name (env.renderOf name data.response)
      true hflag)]
  refine ⟨?_, ?_, ?_⟩
  · intro ek em hr
    have hflag : (execute_jinja env.esc name (env.renderOf name data.response) true).2 = true := by
      rw [hr]
      rfl
    refine ⟨hflag, ?_⟩
    rw [key hflag, hr]
    rfl
  · intro ek em hr
    have hflag : (execute_jinja env.esc name (env.renderOf name data.response) true).2 = true := by
      rw [hr]
      rfl
    refine ⟨hflag, ?_⟩
    rw [key hflag, hr]
    rfl
  · intro ret hr hlong
    have hlt : ret.length > 1990 := hlong
    have hflag : (execute_jinja env.esc name (env.renderOf name data.response) true).2 = true := by
      rw [hr]
      show (if ret.length > 1990 then
          ("Gave up executing " ++ executing_what true ++ " - `" ++ env.esc name ++
            "`.\nReason: `Response is too long`", true)
        else (ret, false)).2 = true
      rw [if_pos hlt]
    refine ⟨hflag, ?_⟩
    rw [key hflag, hr]
    show Event.matchedSent (if ret.length > 1990 then
        ("Gave up executing " ++ executing_what true ++ " - `" ++ env.esc name ++
          "`.\nReason: `Response is too long`", true)
      else (ret, false)).1 = _
    rw [if_pos hlt]

/-- Claim C10, witness. -/
theorem c10_witness :
    (execute_jinja c10Env.esc "abcdef" (c10Env.renderOf "abcdef" c1Entry.response) true).2 =
      true ∧
    (entryStep c10Env c1Msg initialRLState "abcdef" c1Entry).1 = Event.matchedSent
      ("Gave up executing " ++ executing_what true ++ ".\nReason: `" ++
        "TemplateSyntaxError" ++ ": " ++ "unexpected char" ++ "`") :=
  (c10_error_string_sent c10Env c1Msg initialRLState "abcdef" c1Entry
    (by decide) (by decide) (by decide) (by decide) (by decide) rfl).1
    "TemplateSyntaxError" "unexpected char" rfl
